import Mathlib

/-!
# timezone watch face: the tick handler of `src/timezone.c`

A shallow embedding of the per-second tick handler and of the window set-up
that precedes it, followed by theorems about the strings the handler writes.

Modelling conventions

* C `int` fields of `struct tm` are `Int`; the truncating C remainder `%` is
  `Int.tmod`.
* A `char` buffer holds a `String`; `snprintf(buf, size, ...)` stores the first
  `size - 1` characters of the full formatted text (all formatted text here is
  ASCII, so characters and bytes coincide).
* Reading `s_day_names` outside `0..6` is undefined behaviour in C; the model
  returns `none` there, so `tick_handler` has type `Host → State → Option State`.
* What the platform returns during one tick (`localtime`, `gmtime`,
  `clock_is_timezone_set`, `clock_copy_time_string`, `clock_get_timezone`) is
  collected in a `Host` record that the handler receives as an argument.
* A layer carries its `hidden` flag and a `dirty` flag that records an explicit
  `layer_mark_dirty` call.  The five buffer-backed layers and the `"UTC"` label
  are bound to their text once, in `window_load`; the abbreviation layer is
  re-bound on every configured tick, so its text pointer is a field of the
  state.
* `s_timezone_abbr_string` is a `const char *`, not a buffer (line 14): the
  handler stores in it the address of `local_tm->tm_zone` (line 57), a member
  of the struct `localtime` refills on every call (line 30; in the platform
  header `tm_zone` is a character array inside `struct tm`).  The state
  therefore holds the pointer and the current contents of that struct, and the
  abbreviation text is what the pointer refers to at the moment it is read.
-/

namespace Timezone

/-! ## Data model -/

/-- Broken-down time, restricted to the fields of `struct tm` that
`tick_handler` reads. -/
structure tm where
  tm_min : Int
  tm_hour : Int
  tm_mday : Int
  tm_mon : Int
  tm_wday : Int
  tm_zone : String
  deriving DecidableEq

/-- Everything the platform hands to one run of `tick_handler`. -/
structure Host where
  /-- The struct `localtime(&current_time)` points to (line 30). -/
  local_tm : tm
  /-- The struct `gmtime(&current_time)` points to (line 31). -/
  utc_tm : tm
  /-- Result of `clock_is_timezone_set()` (line 46). -/
  timezone_set : Bool
  /-- The local time text `clock_copy_time_string` renders (line 42). -/
  time_string : String
  /-- The region name `clock_get_timezone` reports (line 71). -/
  timezone_name : String
  deriving DecidableEq

/-- A `const char *` value as this program produces it: `NULL`, or the address
of the `tm_zone` member of the struct `localtime` fills (lines 14 and 57). -/
inductive ZonePtr where
  | null
  | localtime_tm_zone
  deriving DecidableEq

/-- A toolkit layer: visibility and pending redraw request. -/
structure Layer where
  hidden : Bool
  dirty : Bool
  deriving DecidableEq

/-- The file-scope buffers and the clock preference (lines 14-22). -/
structure Statics where
  s_timezone_abbr_string : ZonePtr
  s_region_string : String
  s_localdate_string : String
  s_utcdate_string : String
  s_localtime_string : String
  s_utctime_string : String
  s_is_clock_24 : Bool
  deriving DecidableEq

/-- The seven text layers (lines 5-11). -/
structure Layers where
  s_localtime_layer : Layer
  s_localdate_layer : Layer
  s_timezone_abbr_layer : Layer
  s_region_layer : Layer
  s_utctime_layer : Layer
  s_utcdate_layer : Layer
  s_timezone_utc_layer : Layer
  deriving DecidableEq

/-- Program state once the window is loaded: buffers, layers, the text
pointer currently bound to the abbreviation layer, and the contents of the
static struct `localtime` returns a pointer to. -/
structure State extends Statics, Layers where
  s_timezone_abbr_layer_text : ZonePtr
  localtime_tm : tm
  deriving DecidableEq

/-- The text a `ZonePtr` refers to, given the current contents of the struct
`localtime` fills; `none` for `NULL`. -/
def zone_text (p : ZonePtr) (localtime_tm : tm) : Option String :=
  match p with
  | ZonePtr.null => none
  | ZonePtr.localtime_tm_zone => some localtime_tm.tm_zone

/-- The abbreviation text: what `s_timezone_abbr_string` refers to. -/
def abbr_text (st : State) : Option String :=
  zone_text st.s_timezone_abbr_string st.localtime_tm

/-- The text the abbreviation layer draws: what its text pointer refers to. -/
def abbr_layer_text (st : State) : Option String :=
  zone_text st.s_timezone_abbr_layer_text st.localtime_tm

/-! ## Constants -/

/-- The weekday table (lines 25-26). -/
def s_day_names : List String :=
  ["Sun", "Mon", "Tue", "Wed", "Thu", "Fri", "Sat"]

/-- Array read `s_day_names[i]` for a C `int` index: `none` outside the table. -/
def s_day_names_at (i : Int) : Option String :=
  if 0 ≤ i then s_day_names.get? i.toNat else none

/-- Initial contents of `s_localtime_string` and `s_utctime_string`
(lines 18-19). -/
def time_string_init : String := "00:00   "

/-- Value of `sizeof(s_localdate_string)` (line 16). -/
def sizeof_s_localdate_string : Nat := 16

/-- Value of `sizeof(s_utcdate_string)` (line 17). -/
def sizeof_s_utcdate_string : Nat := 16

/-- Value of `sizeof(s_localtime_string)`: the initialiser plus its terminator
(line 18). -/
def sizeof_s_localtime_string : Nat := time_string_init.length + 1

/-- Value of `sizeof(s_utctime_string)`: the initialiser plus its terminator
(line 19). -/
def sizeof_s_utctime_string : Nat := time_string_init.length + 1

/-- The SDK constant `TIMEZONE_NAME_LENGTH`; its header is not part of the
repository, the value is the one the comment on line 15 gives for the region
buffer. -/
def TIMEZONE_NAME_LENGTH : Nat := 32

/-! ## Bounded formatting -/

/-- Conversion `%d` of a C `int`. -/
def fmt_d (n : Int) : String :=
  if n < 0 then "-" ++ Nat.repr n.natAbs else Nat.repr n.toNat

/-- Left-pad with zero characters up to `width` characters. -/
def zero_pad (width : Nat) (s : String) : String :=
  String.mk (List.replicate (width - s.length) '0') ++ s

/-- Conversion `%02d` of a C `int`: minimum field width two, padded with
zeros after the sign. -/
def fmt_02d (n : Int) : String :=
  if n < 0 then "-" ++ zero_pad 1 (Nat.repr n.natAbs) else zero_pad 2 (Nat.repr n.toNat)

/-- What `snprintf(buf, size, ...)` leaves in `buf` when the full formatted
text is `text`: at most `size - 1` characters, then the terminator. -/
def snprintf (size : Nat) (text : String) : String :=
  String.mk (text.data.take (size - 1))

/-- What a bounded host copy (`clock_copy_time_string`, `clock_get_timezone`)
leaves in a buffer of `size` bytes. -/
def bounded_copy (size : Nat) (text : String) : String :=
  String.mk (text.data.take (size - 1))

/-- Full text of the format `"%s %d/%d"` with the arguments of lines 37-38 and
52-53; `none` when the weekday index is outside the table. -/
def date_text (t : tm) : Option String :=
  match s_day_names_at t.tm_wday with
  | none => none
  | some day => some (day ++ " " ++ fmt_d (t.tm_mon + 1) ++ "/" ++ fmt_d t.tm_mday)

/-- The hour argument of line 63-64. -/
def utctime_hour (is_clock_24 : Bool) (tm_hour : Int) : Int :=
  if is_clock_24 then tm_hour
  else if tm_hour.tmod 12 = 0 then 12 else tm_hour.tmod 12

/-- The suffix argument of line 66. -/
def utctime_suffix (is_clock_24 : Bool) (tm_hour : Int) : String :=
  if is_clock_24 then "" else if tm_hour ≤ 12 then " AM" else " PM"

/-- Full text of the format `"%d:%02d%s"` with the arguments of lines 63-66. -/
def utctime_text (is_clock_24 : Bool) (tm_hour tm_min : Int) : String :=
  fmt_d (utctime_hour is_clock_24 tm_hour) ++ ":" ++ fmt_02d tm_min
    ++ utctime_suffix is_clock_24 tm_hour

/-! ## Toolkit calls on layers -/

/-- Effect of `layer_mark_dirty`. -/
def layer_mark_dirty (l : Layer) : Layer := { l with dirty := true }

/-- Effect of `layer_set_hidden`. -/
def layer_set_hidden (l : Layer) (hidden : Bool) : Layer := { l with hidden := hidden }

/-! ## The handler -/

/-- The tick handler (lines 28-75).  Its two C parameters `tick_time` and
`units_changed` are never read in the body (the handler calls `time`,
`localtime` and `gmtime` itself), so the arguments here are the platform
snapshot and the program state. -/
def tick_handler (host : Host) (st : State) : Option State :=
  -- lines 36-39: local date
  match date_text host.local_tm with
  | none => none
  | some localdate =>
    let st1 : State := { st with
      -- line 30: `localtime` refills its struct
      localtime_tm := host.local_tm
      s_localdate_string := snprintf sizeof_s_localdate_string localdate
      s_localdate_layer := layer_mark_dirty st.s_localdate_layer
      -- lines 41-43: local time
      s_localtime_string := bounded_copy sizeof_s_localtime_string host.time_string
      s_localtime_layer := layer_mark_dirty st.s_localtime_layer }
    -- line 46
    if host.timezone_set then
      -- lines 51-54: UTC date
      match date_text host.utc_tm with
      | none => none
      | some utcdate =>
        some { st1 with
          -- lines 47-49
          s_timezone_utc_layer :=
            layer_mark_dirty (layer_set_hidden st1.s_timezone_utc_layer false)
          s_utcdate_string := snprintf sizeof_s_utcdate_string utcdate
          s_utcdate_layer := layer_mark_dirty st1.s_utcdate_layer
          -- lines 56-59: the pointer `local_tm->tm_zone` is stored, not a copy
          s_timezone_abbr_string := ZonePtr.localtime_tm_zone
          s_timezone_abbr_layer_text := ZonePtr.localtime_tm_zone
          s_timezone_abbr_layer := layer_mark_dirty st1.s_timezone_abbr_layer
          -- lines 61-68
          s_utctime_string := snprintf sizeof_s_utctime_string
            (utctime_text st1.s_is_clock_24 host.utc_tm.tm_hour host.utc_tm.tm_min)
          s_utctime_layer := layer_mark_dirty (layer_set_hidden st1.s_utctime_layer false)
          -- lines 70-73
          s_region_string := bounded_copy TIMEZONE_NAME_LENGTH host.timezone_name
          s_region_layer := layer_mark_dirty (layer_set_hidden st1.s_region_layer false) }
    else some st1

/-! ## Window set-up and the event loop -/

/-- The static initialisers of lines 14-22. -/
def static_init : Statics :=
  { s_timezone_abbr_string := ZonePtr.null
    s_region_string := ""
    s_localdate_string := ""
    s_utcdate_string := ""
    s_localtime_string := time_string_init
    s_utctime_string := time_string_init
    s_is_clock_24 := false }

/-- The part of `handle_init` that touches the statics (line 146); the
argument is the result of `clock_is_24h_style()`. -/
def handle_init (clock_is_24h_style : Bool) : Statics :=
  { static_init with s_is_clock_24 := clock_is_24h_style }

/-- Lines 89-129 of `window_load`: the layers are created and three of them
hidden.  `created` holds the seven layers as `setup_text_layer` returns them,
`before_tm` the contents of the struct of `localtime` at that point, which
these lines neither read nor write. -/
def window_setup (created : Layers) (g : Statics) (before_tm : tm) : State :=
  { toStatics := g
    toLayers := { created with
      s_region_layer := layer_set_hidden created.s_region_layer true
      s_timezone_utc_layer := layer_set_hidden created.s_timezone_utc_layer true
      s_utctime_layer := layer_set_hidden created.s_utctime_layer true }
    s_timezone_abbr_layer_text := g.s_timezone_abbr_string
    localtime_tm := before_tm }

/-- The ranges the C standard gives the fields of a `struct tm`. -/
def valid_tm (t : tm) : Prop :=
  (0 ≤ t.tm_min ∧ t.tm_min < 60) ∧ (0 ≤ t.tm_hour ∧ t.tm_hour < 24) ∧
  (1 ≤ t.tm_mday ∧ t.tm_mday ≤ 31) ∧ (0 ≤ t.tm_mon ∧ t.tm_mon < 12) ∧
  (0 ≤ t.tm_wday ∧ t.tm_wday < 7)

instance (t : tm) : Decidable (valid_tm t) := by
  unfold valid_tm; infer_instance

/-! ## Wording of the specification, as definitions

These follow the text of the specification, not the source; the theorems
below compare them with what the handler writes. -/

/-- The character for a single decimal digit. -/
def spec_digit (k : Nat) : Char := Char.ofNat (48 + k)

/-- Decimal numeral, without padding, of a number below one hundred. -/
def spec_decimal (n : Nat) : String :=
  if n < 10 then String.mk [spec_digit n]
  else String.mk [spec_digit (n / 10), spec_digit (n % 10)]

/-- A number below one hundred, zero-padded to two digits. -/
def spec_two_digits (m : Nat) : String :=
  String.mk [spec_digit (m / 10), spec_digit (m % 10)]

/-- Hour shown in 12-hour mode: twelve when `h % 12 = 0`, else `h % 12`. -/
def spec_hour12 (h : Nat) : Nat := if h % 12 = 0 then 12 else h % 12

/-- Suffix in 12-hour mode: `" AM"` when `h <= 12`, `" PM"` when `h > 12`. -/
def spec_suffix12 (h : Nat) : String := if h ≤ 12 then " AM" else " PM"

/-- UTC time text in 12-hour mode. -/
def spec_utctime_12h (h m : Nat) : String :=
  spec_decimal (spec_hour12 h) ++ ":" ++ spec_two_digits m ++ spec_suffix12 h

/-- UTC time text in 24-hour mode. -/
def spec_utctime_24h (h m : Nat) : String :=
  spec_decimal h ++ ":" ++ spec_two_digits m

/-- The weekday table Sun .. Sat, by index. -/
def spec_day_name : Nat → String
  | 0 => "Sun"
  | 1 => "Mon"
  | 2 => "Tue"
  | 3 => "Wed"
  | 4 => "Thu"
  | 5 => "Fri"
  | _ => "Sat"

/-- Date text for weekday index `w`, zero-based month `mon` and day `d`. -/
def spec_date (w mon d : Nat) : String :=
  spec_day_name w ++ " " ++ spec_decimal (mon + 1) ++ "/" ++ spec_decimal d

/-! ## Sample inputs -/

/-- Seven freshly created layers, visible and clean. -/
def sample_layers : Layers :=
  { s_localtime_layer := ⟨false, false⟩
    s_localdate_layer := ⟨false, false⟩
    s_timezone_abbr_layer := ⟨false, false⟩
    s_region_layer := ⟨false, false⟩
    s_utctime_layer := ⟨false, false⟩
    s_utcdate_layer := ⟨false, false⟩
    s_timezone_utc_layer := ⟨false, false⟩ }

/-- A zero-filled `struct tm`. -/
def sample_tm_zero : tm :=
  { tm_min := 0, tm_hour := 0, tm_mday := 0, tm_mon := 0, tm_wday := 0, tm_zone := "" }

/-- State at the end of the set-up part of `window_load`, 12-hour preference. -/
def sample_state_12h : State :=
  window_setup sample_layers (handle_init false) sample_tm_zero

/-- State at the end of the set-up part of `window_load`, 24-hour preference. -/
def sample_state_24h : State :=
  window_setup sample_layers (handle_init true) sample_tm_zero

/-- Wednesday 9 April, local 14:30 EST, UTC 18:30, timezone configured. -/
def sample_host : Host :=
  { local_tm := { tm_min := 30, tm_hour := 14, tm_mday := 9, tm_mon := 3, tm_wday := 3,
                  tm_zone := "EST" }
    utc_tm := { tm_min := 30, tm_hour := 18, tm_mday := 9, tm_mon := 3, tm_wday := 3,
                tm_zone := "UTC" }
    timezone_set := true
    time_string := "2:30 PM"
    timezone_name := "America/New_York" }

/-- The sample tick five minutes past 13:00 UTC. -/
def sample_host_1305 : Host :=
  { sample_host with
    utc_tm := { sample_host.utc_tm with tm_hour := 13, tm_min := 5 } }

/-- Sunday 9 April locally while UTC is already Monday 10 April. -/
def sample_host_sunday : Host :=
  { sample_host with
    local_tm := { sample_host.local_tm with tm_wday := 0, tm_hour := 22 }
    utc_tm := { sample_host.utc_tm with tm_wday := 1, tm_mday := 10, tm_hour := 2 } }

/-- Wednesday 31 December in both zones. -/
def sample_host_dec31 : Host :=
  { sample_host with
    local_tm := { sample_host.local_tm with tm_mon := 11, tm_mday := 31 }
    utc_tm := { sample_host.utc_tm with tm_mon := 11, tm_mday := 31 } }

/-- The sample tick with no timezone configured. -/
def sample_host_unset : Host := { sample_host with timezone_set := false }

/-- The state one configured tick leaves behind: UTC fields filled and shown. -/
def sample_state_shown : State :=
  (tick_handler sample_host sample_state_12h).getD sample_state_12h

/-- The sample tick at 0:00 UTC. -/
def sample_host_midnight : Host :=
  { sample_host with utc_tm := { sample_host.utc_tm with tm_hour := 0, tm_min := 0 } }

/-- The sample tick at 12:00 UTC. -/
def sample_host_noon : Host :=
  { sample_host with utc_tm := { sample_host.utc_tm with tm_hour := 12, tm_min := 0 } }

/-- The characters of a time text before its colon. -/
def hour_part (s : String) : List Char := s.data.takeWhile (fun c => c != ':')

/-- The characters of a time text after its colon. -/
def rest_part (s : String) : List Char := (s.data.dropWhile (fun c => c != ':')).drop 1

/-- Value of a list of decimal digit characters. -/
def digits_value (l : List Char) : Nat := l.foldl (fun acc c => 10 * acc + (c.toNat - 48)) 0

end Timezone

namespace Timezone

/-! ## Formatting lemmas -/

theorem snprintf_of_fits (size : Nat) (text : String) (h : text.length + 1 ≤ size) :
    snprintf size text = text := by
  unfold snprintf
  have hlen : text.data.length ≤ size - 1 := by
    have : text.data.length = text.length := rfl
    omega
  rw [List.take_of_length_le hlen]

theorem fmt_d_lt_100 (n : Nat) (hn : n < 100) : fmt_d (n : Int) = spec_decimal n := by
  interval_cases n <;> rfl

theorem fmt_02d_lt_100 (n : Nat) (hn : n < 100) :
    fmt_02d (n : Int) = spec_two_digits n := by
  interval_cases n <;> rfl

theorem spec_decimal_length_le (n : Nat) : (spec_decimal n).length ≤ 2 := by
  unfold spec_decimal; split <;> simp [String.length]

theorem spec_two_digits_length (n : Nat) : (spec_two_digits n).length = 2 := by
  simp [spec_two_digits, String.length]

theorem spec_hour12_lt (h : Nat) : spec_hour12 h < 100 := by
  unfold spec_hour12; split <;> omega

theorem utctime_hour_12h (h : Nat) (hh : h < 24) :
    utctime_hour false (h : Int) = ((spec_hour12 h : Nat) : Int) := by
  interval_cases h <;> rfl

theorem utctime_suffix_12h (h : Nat) :
    utctime_suffix false (h : Int) = spec_suffix12 h := by
  unfold utctime_suffix spec_suffix12
  simp only [Bool.false_eq_true, if_false]
  by_cases hc : h ≤ 12
  · have hi : (h : Int) ≤ 12 := by exact_mod_cast hc
    simp [hc, hi]
  · have hi : ¬ (h : Int) ≤ 12 := by
      intro hx; apply hc; exact_mod_cast hx
    simp [hc, hi]

theorem spec_suffix12_length (h : Nat) : (spec_suffix12 h).length = 3 := by
  unfold spec_suffix12; split <;> rfl

theorem utctime_text_12h (h m : Nat) (hh : h < 24) (hm : m < 60) :
    utctime_text false (h : Int) (m : Int) = spec_utctime_12h h m := by
  unfold utctime_text spec_utctime_12h
  rw [utctime_hour_12h h hh, fmt_d_lt_100 _ (spec_hour12_lt h),
    fmt_02d_lt_100 m (by omega), utctime_suffix_12h]

theorem utctime_text_24h (h m : Nat) (hh : h < 24) (hm : m < 60) :
    utctime_text true (h : Int) (m : Int) = spec_utctime_24h h m := by
  unfold utctime_text spec_utctime_24h utctime_hour utctime_suffix
  simp only [if_true]
  rw [fmt_d_lt_100 h (by omega), fmt_02d_lt_100 m (by omega)]
  exact String.append_empty _

theorem spec_utctime_12h_length (h m : Nat) : (spec_utctime_12h h m).length ≤ 8 := by
  unfold spec_utctime_12h
  have h1 := spec_decimal_length_le (spec_hour12 h)
  have h2 := spec_two_digits_length m
  have h3 := spec_suffix12_length h
  have h4 : ":".length = 1 := rfl
  simp only [String.length_append]
  omega

theorem spec_utctime_24h_length (h m : Nat) : (spec_utctime_24h h m).length ≤ 5 := by
  unfold spec_utctime_24h
  have h1 := spec_decimal_length_le h
  have h2 := spec_two_digits_length m
  have h4 : ":".length = 1 := rfl
  simp only [String.length_append]
  omega

theorem utctime_text_length (is24 : Bool) (h m : Nat) (hh : h < 24) (hm : m < 60) :
    (utctime_text is24 (h : Int) (m : Int)).length ≤ 8 := by
  cases is24
  · rw [utctime_text_12h h m hh hm]; exact spec_utctime_12h_length h m
  · rw [utctime_text_24h h m hh hm]
    have := spec_utctime_24h_length h m
    omega

theorem sizeof_s_utctime_string_eq : sizeof_s_utctime_string = 9 := by decide

theorem s_day_names_at_lt (w : Nat) (hw : w < 7) :
    s_day_names_at (w : Int) = some (spec_day_name w) := by
  interval_cases w <;> rfl

theorem spec_day_name_length (w : Nat) : (spec_day_name w).length = 3 := by
  unfold spec_day_name; split <;> rfl

theorem date_text_of_fields (t : tm) (w mon d : Nat) (hw : w < 7) (hmon : mon < 12)
    (hd : d ≤ 31) (ew : t.tm_wday = (w : Int)) (emon : t.tm_mon = (mon : Int))
    (ed : t.tm_mday = (d : Int)) :
    date_text t = some (spec_date w mon d) := by
  unfold date_text
  rw [ew, s_day_names_at_lt w hw, emon, ed]
  have e1 : ((mon : Int) + 1) = ((mon + 1 : Nat) : Int) := by push_cast; rfl
  rw [e1, fmt_d_lt_100 (mon + 1) (by omega), fmt_d_lt_100 d (by omega)]
  rfl

theorem spec_date_length (w mon d : Nat) : (spec_date w mon d).length ≤ 9 := by
  unfold spec_date
  have h1 := spec_day_name_length w
  have h2 := spec_decimal_length_le (mon + 1)
  have h3 := spec_decimal_length_le d
  have h4 : " ".length = 1 := rfl
  have h5 : "/".length = 1 := rfl
  simp only [String.length_append]
  omega

theorem date_text_of_wday (t : tm) (h0 : 0 ≤ t.tm_wday) (h7 : t.tm_wday < 7) :
    ∃ text, date_text t = some text := by
  obtain ⟨w, hw⟩ := Int.eq_ofNat_of_zero_le h0
  have hw7 : w < 7 := by omega
  unfold date_text
  rw [hw, s_day_names_at_lt w hw7]
  exact ⟨_, rfl⟩

/-! ## The two branches of the handler -/

theorem tick_handler_unset (host : Host) (st : State) (localdate : String)
    (hl : date_text host.local_tm = some localdate) (htz : host.timezone_set = false) :
    tick_handler host st = some { st with
      localtime_tm := host.local_tm
      s_localdate_string := snprintf sizeof_s_localdate_string localdate
      s_localdate_layer := layer_mark_dirty st.s_localdate_layer
      s_localtime_string := bounded_copy sizeof_s_localtime_string host.time_string
      s_localtime_layer := layer_mark_dirty st.s_localtime_layer } := by
  simp [tick_handler, hl, htz]

theorem tick_handler_set (host : Host) (st : State) (localdate utcdate : String)
    (hl : date_text host.local_tm = some localdate)
    (hu : date_text host.utc_tm = some utcdate) (htz : host.timezone_set = true) :
    tick_handler host st = some { st with
      localtime_tm := host.local_tm
      s_localdate_string := snprintf sizeof_s_localdate_string localdate
      s_localdate_layer := layer_mark_dirty st.s_localdate_layer
      s_localtime_string := bounded_copy sizeof_s_localtime_string host.time_string
      s_localtime_layer := layer_mark_dirty st.s_localtime_layer
      s_timezone_utc_layer :=
        layer_mark_dirty (layer_set_hidden st.s_timezone_utc_layer false)
      s_utcdate_string := snprintf sizeof_s_utcdate_string utcdate
      s_utcdate_layer := layer_mark_dirty st.s_utcdate_layer
      s_timezone_abbr_string := ZonePtr.localtime_tm_zone
      s_timezone_abbr_layer_text := ZonePtr.localtime_tm_zone
      s_timezone_abbr_layer := layer_mark_dirty st.s_timezone_abbr_layer
      s_utctime_string := snprintf sizeof_s_utctime_string
        (utctime_text st.s_is_clock_24 host.utc_tm.tm_hour host.utc_tm.tm_min)
      s_utctime_layer := layer_mark_dirty (layer_set_hidden st.s_utctime_layer false)
      s_region_string := bounded_copy TIMEZONE_NAME_LENGTH host.timezone_name
      s_region_layer := layer_mark_dirty (layer_set_hidden st.s_region_layer false) } := by
  simp [tick_handler, hl, hu, htz]

/-! ## Claims about the UTC time string -/

/-- C1. With the 24-hour preference off and a timezone configured, for every
UTC hour `h` in 0..23 and minute `m` in 0..59 the handler completes and the UTC
time string is the decimal numeral of `d`, a colon, `m` zero-padded to two
digits and the suffix, where `d` is 12 if `h % 12 = 0` and `h % 12` otherwise
and the suffix is `" AM"` for `h <= 12`, `" PM"` for `h > 12`; hence
`"12:00 AM"` at 0:00, `"12:00 AM"` at 12:00 and `"6:30 PM"` at 18:30. -/
theorem C1_utctime_12h (host : Host) (st : State) (h m : Nat)
    (hh : h < 24) (hm : m < 60)
    (ehour : host.utc_tm.tm_hour = (h : Int)) (emin : host.utc_tm.tm_min = (m : Int))
    (hlw : 0 ≤ host.local_tm.tm_wday ∧ host.local_tm.tm_wday < 7)
    (huw : 0 ≤ host.utc_tm.tm_wday ∧ host.utc_tm.tm_wday < 7)
    (htz : host.timezone_set = true) (h12 : st.s_is_clock_24 = false) :
    ∃ st1, tick_handler host st = some st1 ∧
      st1.s_utctime_string = spec_utctime_12h h m ∧
      (h = 0 → m = 0 → st1.s_utctime_string = "12:00 AM") ∧
      (h = 12 → m = 0 → st1.s_utctime_string = "12:00 AM") ∧
      (h = 18 → m = 30 → st1.s_utctime_string = "6:30 PM") := by
  obtain ⟨ld, hld⟩ := date_text_of_wday host.local_tm hlw.1 hlw.2
  obtain ⟨ud, hud⟩ := date_text_of_wday host.utc_tm huw.1 huw.2
  have key : snprintf sizeof_s_utctime_string
      (utctime_text st.s_is_clock_24 host.utc_tm.tm_hour host.utc_tm.tm_min)
      = spec_utctime_12h h m := by
    rw [h12, ehour, emin, utctime_text_12h h m hh hm]
    apply snprintf_of_fits
    have := spec_utctime_12h_length h m
    rw [sizeof_s_utctime_string_eq]
    omega
  refine ⟨_, tick_handler_set host st ld ud hld hud htz, key, ?_, ?_, ?_⟩
  · intro e1 e2; subst e1; subst e2; exact key
  · intro e1 e2; subst e1; subst e2; exact key
  · intro e1 e2; subst e1; subst e2; exact key

/-- Witness for C1: the 18:30 UTC sample tick in 12-hour mode shows `"6:30 PM"`. -/
theorem C1_utctime_12h_witness :
    ∃ st1, tick_handler sample_host sample_state_12h = some st1 ∧
      st1.s_utctime_string = "6:30 PM" := by
  obtain ⟨st1, h1, -, -, -, h5⟩ :=
    C1_utctime_12h sample_host sample_state_12h 18 30 (by decide) (by decide) rfl rfl
      (by decide) (by decide) rfl rfl
  exact ⟨st1, h1, h5 rfl rfl⟩

/-- C2. With the 24-hour preference on and a timezone configured, for every
UTC hour `h` in 0..23 and minute `m` in 0..59 the handler completes and the UTC
time string is the decimal numeral of `h` itself (no padding, no reduction
modulo 12), a colon and `m` zero-padded to two digits, with no suffix; 13:05
gives `"13:05"`. -/
theorem C2_utctime_24h (host : Host) (st : State) (h m : Nat)
    (hh : h < 24) (hm : m < 60)
    (ehour : host.utc_tm.tm_hour = (h : Int)) (emin : host.utc_tm.tm_min = (m : Int))
    (hlw : 0 ≤ host.local_tm.tm_wday ∧ host.local_tm.tm_wday < 7)
    (huw : 0 ≤ host.utc_tm.tm_wday ∧ host.utc_tm.tm_wday < 7)
    (htz : host.timezone_set = true) (h24 : st.s_is_clock_24 = true) :
    ∃ st1, tick_handler host st = some st1 ∧
      st1.s_utctime_string = spec_decimal h ++ ":" ++ spec_two_digits m ∧
      (h = 13 → m = 5 → st1.s_utctime_string = "13:05") := by
  obtain ⟨ld, hld⟩ := date_text_of_wday host.local_tm hlw.1 hlw.2
  obtain ⟨ud, hud⟩ := date_text_of_wday host.utc_tm huw.1 huw.2
  have key : snprintf sizeof_s_utctime_string
      (utctime_text st.s_is_clock_24 host.utc_tm.tm_hour host.utc_tm.tm_min)
      = spec_decimal h ++ ":" ++ spec_two_digits m := by
    rw [h24, ehour, emin, utctime_text_24h h m hh hm]
    apply snprintf_of_fits
    have := spec_utctime_24h_length h m
    rw [sizeof_s_utctime_string_eq]
    omega
  refine ⟨_, tick_handler_set host st ld ud hld hud htz, key, ?_⟩
  intro e1 e2; subst e1; subst e2; exact key

/-- Witness for C2: 13:05 UTC in 24-hour mode shows `"13:05"`. -/
theorem C2_utctime_24h_witness :
    ∃ st1, tick_handler sample_host_1305 sample_state_24h = some st1 ∧
      st1.s_utctime_string = "13:05" := by
  obtain ⟨st1, h1, -, h3⟩ :=
    C2_utctime_24h sample_host_1305 sample_state_24h 13 5 (by decide) (by decide) rfl rfl
      (by decide) (by decide) rfl rfl
  exact ⟨st1, h1, h3 rfl rfl⟩

/-! ## Claims about the date strings -/

/-- C3. For weekday index `w` in 0..6, zero-based month `mon` in 0..11 and day
`d` in 1..31 the table lookup is in bounds and the handler completes with the
local date string equal to `s_day_names[w]`, a space, the decimal numeral of
`mon + 1`, a slash and the decimal numeral of `d`, nothing zero-padded; when a
timezone is configured the UTC date string has the same form for the UTC
fields.  Index 3 is `"Wed"`, and Sunday the 9th of month 4 gives `"Sun 4/9"`. -/
theorem C3_date_format (host : Host) (st : State) (w mon d uw umon ud : Nat)
    (hw : w < 7) (hmon : mon < 12) (hd1 : 1 ≤ d) (hd : d ≤ 31)
    (huw : uw < 7) (humon : umon < 12) (_hud1 : 1 ≤ ud) (hud : ud ≤ 31)
    (ew : host.local_tm.tm_wday = (w : Int)) (emon : host.local_tm.tm_mon = (mon : Int))
    (ed : host.local_tm.tm_mday = (d : Int))
    (euw : host.utc_tm.tm_wday = (uw : Int)) (eumon : host.utc_tm.tm_mon = (umon : Int))
    (eud : host.utc_tm.tm_mday = (ud : Int)) :
    s_day_names.get? w = some (spec_day_name w) ∧
    s_day_names.get? 3 = some "Wed" ∧
    ∃ st1, tick_handler host st = some st1 ∧
      st1.s_localdate_string = spec_date w mon d ∧
      (host.timezone_set = true → st1.s_utcdate_string = spec_date uw umon ud) ∧
      (w = 0 → mon + 1 = 4 → d = 9 → st1.s_localdate_string = "Sun 4/9") := by
  have hl := date_text_of_fields host.local_tm w mon d hw hmon hd ew emon ed
  have hu := date_text_of_fields host.utc_tm uw umon ud huw humon hud euw eumon eud
  have fl : snprintf sizeof_s_localdate_string (spec_date w mon d) = spec_date w mon d := by
    apply snprintf_of_fits
    have := spec_date_length w mon d
    unfold sizeof_s_localdate_string
    omega
  have fu : snprintf sizeof_s_utcdate_string (spec_date uw umon ud)
      = spec_date uw umon ud := by
    apply snprintf_of_fits
    have := spec_date_length uw umon ud
    unfold sizeof_s_utcdate_string
    omega
  have ex : w = 0 → mon + 1 = 4 → d = 9 → spec_date w mon d = "Sun 4/9" := by
    intro e1 e2 e3
    have e4 : mon = 3 := by omega
    subst e1; subst e4; subst e3; rfl
  refine ⟨?_, rfl, ?_⟩
  · interval_cases w <;> rfl
  · cases htz : host.timezone_set
    · refine ⟨_, tick_handler_unset host st _ hl htz, fl, ?_, ?_⟩
      · intro hc; cases hc
      · intro e1 e2 e3; exact fl.trans (ex e1 e2 e3)
    · refine ⟨_, tick_handler_set host st _ _ hl hu htz, fl, fun _ => fu, ?_⟩
      intro e1 e2 e3; exact fl.trans (ex e1 e2 e3)

/-- Witness for C3: Sunday 9 April locally, Monday 10 April in UTC. -/
theorem C3_date_format_witness :
    ∃ st1, tick_handler sample_host_sunday sample_state_12h = some st1 ∧
      st1.s_localdate_string = "Sun 4/9" ∧ st1.s_utcdate_string = "Mon 4/10" := by
  obtain ⟨-, -, st1, h1, -, h3, h4⟩ :=
    C3_date_format sample_host_sunday sample_state_12h 0 3 9 1 3 10
      (by decide) (by decide) (by decide) (by decide)
      (by decide) (by decide) (by decide) (by decide) rfl rfl rfl rfl rfl rfl
  exact ⟨st1, h1, h4 rfl rfl rfl, h3 rfl⟩

/-- C7. Both date buffers have capacity 16, and for every weekday index in
0..6, `tm_mon` in 0..11 and day in 1..31 the full text of `"%s %d/%d"` has at
most 9 characters, below the 15 the buffer allows, so the handler stores it
whole: the local date on every tick, the UTC date when a timezone is
configured. -/
theorem C7_date_fits (host : Host) (st : State)
    (hl : valid_tm host.local_tm) (hu : valid_tm host.utc_tm) :
    sizeof_s_localdate_string = 16 ∧ sizeof_s_utcdate_string = 16 ∧
    ∃ ltext utext, date_text host.local_tm = some ltext ∧
      date_text host.utc_tm = some utext ∧
      ltext.length ≤ 9 ∧ utext.length ≤ 9 ∧
      ltext.length + 1 ≤ sizeof_s_localdate_string ∧
      utext.length + 1 ≤ sizeof_s_utcdate_string ∧
      ∃ st1, tick_handler host st = some st1 ∧
        st1.s_localdate_string = ltext ∧
        (host.timezone_set = true → st1.s_utcdate_string = utext) := by
  obtain ⟨-, -, ⟨hd1, hd31⟩, ⟨hm0, hm12⟩, ⟨hw0, hw7⟩⟩ := hl
  obtain ⟨-, -, ⟨ud1, ud31⟩, ⟨um0, um12⟩, ⟨uw0, uw7⟩⟩ := hu
  obtain ⟨w, ew⟩ := Int.eq_ofNat_of_zero_le hw0
  obtain ⟨mon, emon⟩ := Int.eq_ofNat_of_zero_le hm0
  obtain ⟨d, ed⟩ := Int.eq_ofNat_of_zero_le (by omega : 0 ≤ host.local_tm.tm_mday)
  obtain ⟨uw, euw⟩ := Int.eq_ofNat_of_zero_le uw0
  obtain ⟨umon, eumon⟩ := Int.eq_ofNat_of_zero_le um0
  obtain ⟨ud, eud⟩ := Int.eq_ofNat_of_zero_le (by omega : 0 ≤ host.utc_tm.tm_mday)
  have hl := date_text_of_fields host.local_tm w mon d (by omega) (by omega) (by omega)
    ew emon ed
  have hu := date_text_of_fields host.utc_tm uw umon ud (by omega) (by omega) (by omega)
    euw eumon eud
  have ll := spec_date_length w mon d
  have lu := spec_date_length uw umon ud
  have fl : snprintf sizeof_s_localdate_string (spec_date w mon d) = spec_date w mon d := by
    apply snprintf_of_fits
    unfold sizeof_s_localdate_string
    omega
  have fu : snprintf sizeof_s_utcdate_string (spec_date uw umon ud)
      = spec_date uw umon ud := by
    apply snprintf_of_fits
    unfold sizeof_s_utcdate_string
    omega
  refine ⟨rfl, rfl, _, _, hl, hu, ll, lu, ?_, ?_, ?_⟩
  · unfold sizeof_s_localdate_string; omega
  · unfold sizeof_s_utcdate_string; omega
  · cases htz : host.timezone_set
    · refine ⟨_, tick_handler_unset host st _ hl htz, fl, ?_⟩
      intro hc; cases hc
    · exact ⟨_, tick_handler_set host st _ _ hl hu htz, fl, fun _ => fu⟩

/-- Witness for C7: the longest date, Wednesday 31 December, is stored whole. -/
theorem C7_date_fits_witness :
    ∃ st1, tick_handler sample_host_dec31 sample_state_12h = some st1 ∧
      st1.s_localdate_string = "Wed 12/31" ∧ st1.s_utcdate_string = "Wed 12/31" ∧
      "Wed 12/31".length = 9 := by
  obtain ⟨-, -, ltext, utext, h1, h2, -, -, -, -, st1, h3, h4, h5⟩ :=
    C7_date_fits sample_host_dec31 sample_state_12h (by decide) (by decide)
  have e1 : ltext = "Wed 12/31" := by
    have : date_text sample_host_dec31.local_tm = some "Wed 12/31" := by decide
    rw [this] at h1; exact (Option.some.inj h1).symm
  have e2 : utext = "Wed 12/31" := by
    have : date_text sample_host_dec31.utc_tm = some "Wed 12/31" := by decide
    rw [this] at h2; exact (Option.some.inj h2).symm
  exact ⟨st1, h3, by rw [h4, e1], by rw [h5 rfl, e2], by decide⟩

/-- C6. `s_utctime_string` has capacity 9, and for every UTC hour in 0..23,
minute in 0..59 and either clock preference the full text of `"%d:%02d%s"` has
at most 8 characters, so the handler stores it whole; `"12:00 AM"` reaches
8 characters. -/
theorem C6_utctime_fits (host : Host) (st : State)
    (hl : valid_tm host.local_tm) (hu : valid_tm host.utc_tm)
    (htz : host.timezone_set = true) :
    sizeof_s_utctime_string = 9 ∧
    (utctime_text st.s_is_clock_24 host.utc_tm.tm_hour host.utc_tm.tm_min).length ≤ 8 ∧
    (∃ st1, tick_handler host st = some st1 ∧
      st1.s_utctime_string =
        utctime_text st.s_is_clock_24 host.utc_tm.tm_hour host.utc_tm.tm_min) ∧
    utctime_text false 0 0 = "12:00 AM" ∧ (utctime_text false 0 0).length = 8 := by
  obtain ⟨-, -, -, -, ⟨hw0, hw7⟩⟩ := hl
  obtain ⟨⟨um0, um60⟩, ⟨uh0, uh24⟩, -, -, ⟨uw0, uw7⟩⟩ := hu
  obtain ⟨ld, hld⟩ := date_text_of_wday host.local_tm hw0 hw7
  obtain ⟨ud, hud⟩ := date_text_of_wday host.utc_tm uw0 uw7
  obtain ⟨h, eh⟩ := Int.eq_ofNat_of_zero_le uh0
  obtain ⟨m, em⟩ := Int.eq_ofNat_of_zero_le um0
  have len : (utctime_text st.s_is_clock_24 host.utc_tm.tm_hour
      host.utc_tm.tm_min).length ≤ 8 := by
    rw [eh, em]
    exact utctime_text_length _ h m (by omega) (by omega)
  refine ⟨sizeof_s_utctime_string_eq, len, ⟨_, tick_handler_set host st ld ud hld hud htz, ?_⟩,
    by decide, by decide⟩
  apply snprintf_of_fits
  rw [sizeof_s_utctime_string_eq]
  omega

/-- Witness for C6: the sample tick stores `"6:30 PM"` whole. -/
theorem C6_utctime_fits_witness :
    ∃ st1, tick_handler sample_host sample_state_12h = some st1 ∧
      st1.s_utctime_string = utctime_text false 18 30 := by
  obtain ⟨-, -, ⟨st1, h1, h2⟩, -⟩ :=
    C6_utctime_fits sample_host sample_state_12h (by decide) (by decide) rfl
  exact ⟨st1, h1, h2⟩

/-! ## Claims about the hour conversion -/

/-- C5 fails as stated at hour 12: in 12-hour mode the hour argument is 12,
not `12 % 12 = 0`, and the string written is `"12:00 AM"`. -/
theorem C5_counterexample :
    utctime_hour false 12 = 12 ∧
    ¬ (utctime_hour false 12 = (12 : Int) % 12) ∧
    utctime_text false 12 0 = "12:00 AM" := by
  decide

/-- C5, amended. With the 24-hour preference off, UTC hours 0 and 12 are shown
as 12 and every other hour `h` in 1..23 as `h % 12`; with the preference on
the hour is shown as `h` itself.  In both modes the shown number is the
decimal numeral that opens the UTC time text, up to the colon. -/
theorem C5_hour_conversion (h : Nat) (hh : h < 24) :
    (h = 0 ∨ h = 12 → utctime_hour false (h : Int) = 12) ∧
    (h ≠ 0 → h ≠ 12 → utctime_hour false (h : Int) = ((h % 12 : Nat) : Int)) ∧
    utctime_hour true (h : Int) = (h : Int) ∧
    (∀ m : Nat, m < 60 →
      utctime_text false (h : Int) (m : Int) =
        spec_decimal (if h = 0 ∨ h = 12 then 12 else h % 12) ++ ":" ++ spec_two_digits m
          ++ utctime_suffix false (h : Int)) ∧
    (∀ m : Nat, m < 60 →
      utctime_text true (h : Int) (m : Int) = spec_decimal h ++ ":" ++ spec_two_digits m) := by
  refine ⟨?_, ?_, rfl, ?_, ?_⟩
  · rintro (e | e) <;> subst e <;> rfl
  · intro h0 h12
    interval_cases h <;> first | rfl | exact absurd rfl h0 | exact absurd rfl h12
  · intro m hm
    rw [utctime_text_12h h m hh hm, utctime_suffix_12h]
    unfold spec_utctime_12h
    have e : spec_hour12 h = if h = 0 ∨ h = 12 then 12 else h % 12 := by
      interval_cases h <;> rfl
    rw [e]
  · intro m hm
    exact utctime_text_24h h m hh hm

/-- Witness for C5: hour 18 is shown as 6 in 12-hour mode and as 18 in 24-hour
mode. -/
theorem C5_hour_conversion_witness :
    utctime_hour false 18 = 6 ∧ utctime_hour true 18 = 18 := by
  obtain ⟨-, h2, h3, -, -⟩ := C5_hour_conversion 18 (by decide)
  exact ⟨h2 (by decide) (by decide), h3⟩

/-- C10. In 12-hour mode, for every UTC hour `h` in 0..23 the hour number the
handler formats lies in 1..12 and is congruent to `h` modulo 12, and its
decimal numeral opens the UTC time text. -/
theorem C10_clock_face_hour (h : Int) (h0 : 0 ≤ h) (h24 : h < 24) :
    1 ≤ utctime_hour false h ∧ utctime_hour false h ≤ 12 ∧
    utctime_hour false h % 12 = h % 12 ∧
    ∃ d : Nat, utctime_hour false h = (d : Int) ∧ 1 ≤ d ∧ d ≤ 12 ∧
      ∀ m : Nat, m < 60 →
        utctime_text false h (m : Int) =
          spec_decimal d ++ ":" ++ spec_two_digits m ++ utctime_suffix false h := by
  obtain ⟨n, rfl⟩ := Int.eq_ofNat_of_zero_le h0
  have hn : n < 24 := by omega
  have e := utctime_hour_12h n hn
  have b1 : 1 ≤ spec_hour12 n := by unfold spec_hour12; split <;> omega
  have b2 : spec_hour12 n ≤ 12 := by unfold spec_hour12; split <;> omega
  have b3 : spec_hour12 n % 12 = n % 12 := by unfold spec_hour12; split <;> omega
  refine ⟨?_, ?_, ?_, spec_hour12 n, e, b1, b2, ?_⟩
  · rw [e]; exact_mod_cast b1
  · rw [e]; exact_mod_cast b2
  · rw [e]; exact_mod_cast congrArg (Nat.cast : Nat → Int) b3
  · intro m hm
    rw [utctime_text_12h n m hn hm, utctime_suffix_12h]
    rfl

/-- Witness for C10: hour 12 is shown as 12, hour 23 as 11. -/
theorem C10_clock_face_hour_witness :
    (1 ≤ utctime_hour false 12 ∧ utctime_hour false 12 ≤ 12 ∧
      utctime_hour false 12 % 12 = 12 % 12) ∧ utctime_hour false 23 = 11 := by
  obtain ⟨h1, h2, h3, -⟩ := C10_clock_face_hour 12 (by decide) (by decide)
  exact ⟨⟨h1, h2, h3⟩, by decide⟩

/-! ## Claims about the frame of a tick -/

/-- C8 fails as stated: with no timezone configured the same tick applied to
two prior states (UTC fields absent, UTC fields shown) leaves different UTC
date strings and different hidden flags. -/
theorem C8_counterexample :
    sample_state_12h.s_is_clock_24 = sample_state_shown.s_is_clock_24 ∧
    (tick_handler sample_host_unset sample_state_12h).map
      (fun s => (s.s_utcdate_string, s.s_timezone_utc_layer.hidden)) = some ("", true) ∧
    (tick_handler sample_host_unset sample_state_shown).map
      (fun s => (s.s_utcdate_string, s.s_timezone_utc_layer.hidden))
        = some ("Wed 4/9", false) := by
  decide

/-- C8, amended. For two prior states with the same clock preference and the
same tick inputs the handler completes on both, and the local date and local
time strings agree; when a timezone is configured all six strings, the text
bound to the abbreviation layer and the hidden flags of the UTC label, UTC
time and region layers (all cleared) agree as well, the abbreviation text
being the zone name of the tick.  The hidden flags of the other four layers
are never written: each keeps its prior value. -/
theorem C8_tick_determined (host : Host) (sa sb : State)
    (hpref : sa.s_is_clock_24 = sb.s_is_clock_24)
    (hlw : 0 ≤ host.local_tm.tm_wday ∧ host.local_tm.tm_wday < 7)
    (huw : 0 ≤ host.utc_tm.tm_wday ∧ host.utc_tm.tm_wday < 7) :
    ∃ ra rb, tick_handler host sa = some ra ∧ tick_handler host sb = some rb ∧
      ra.s_localdate_string = rb.s_localdate_string ∧
      ra.s_localtime_string = rb.s_localtime_string ∧
      (host.timezone_set = true →
        ra.toStatics = rb.toStatics ∧
        ra.s_timezone_abbr_layer_text = rb.s_timezone_abbr_layer_text ∧
        ra.s_timezone_utc_layer.hidden = rb.s_timezone_utc_layer.hidden ∧
        ra.s_utctime_layer.hidden = rb.s_utctime_layer.hidden ∧
        ra.s_region_layer.hidden = rb.s_region_layer.hidden ∧
        rb.s_timezone_utc_layer.hidden = false ∧ rb.s_utctime_layer.hidden = false ∧
        rb.s_region_layer.hidden = false ∧
        abbr_text ra = some host.local_tm.tm_zone ∧ abbr_text rb = abbr_text ra ∧
        abbr_layer_text ra = some host.local_tm.tm_zone ∧
        abbr_layer_text rb = abbr_layer_text ra) ∧
      (ra.s_localdate_layer.hidden = sa.s_localdate_layer.hidden ∧
        ra.s_localtime_layer.hidden = sa.s_localtime_layer.hidden ∧
        ra.s_timezone_abbr_layer.hidden = sa.s_timezone_abbr_layer.hidden ∧
        ra.s_utcdate_layer.hidden = sa.s_utcdate_layer.hidden) ∧
      (rb.s_localdate_layer.hidden = sb.s_localdate_layer.hidden ∧
        rb.s_localtime_layer.hidden = sb.s_localtime_layer.hidden ∧
        rb.s_timezone_abbr_layer.hidden = sb.s_timezone_abbr_layer.hidden ∧
        rb.s_utcdate_layer.hidden = sb.s_utcdate_layer.hidden) := by
  obtain ⟨ld, hld⟩ := date_text_of_wday host.local_tm hlw.1 hlw.2
  obtain ⟨ud, hud⟩ := date_text_of_wday host.utc_tm huw.1 huw.2
  cases htz : host.timezone_set
  · refine ⟨_, _, tick_handler_unset host sa ld hld htz,
      tick_handler_unset host sb ld hld htz, rfl, rfl, ?_, ⟨rfl, rfl, rfl, rfl⟩,
      rfl, rfl, rfl, rfl⟩
    intro hc; cases hc
  · refine ⟨_, _, tick_handler_set host sa ld ud hld hud htz,
      tick_handler_set host sb ld ud hld hud htz, rfl, rfl, ?_, ⟨rfl, rfl, rfl, rfl⟩,
      rfl, rfl, rfl, rfl⟩
    intro _
    refine ⟨?_, rfl, rfl, rfl, rfl, rfl, rfl, rfl, rfl, rfl, rfl, rfl⟩
    simp [hpref]

/-- Witness for C8: the configured sample tick sends the two sample states to
the same strings. -/
theorem C8_tick_determined_witness :
    ∃ ra rb, tick_handler sample_host sample_state_12h = some ra ∧
      tick_handler sample_host sample_state_shown = some rb ∧
      ra.toStatics = rb.toStatics ∧ ra.s_utcdate_string = "Wed 4/9" := by
  obtain ⟨ra, rb, h1, h2, -, -, h5, -⟩ :=
    C8_tick_determined sample_host sample_state_12h sample_state_shown (by decide)
      (by decide) (by decide)
  refine ⟨ra, rb, h1, h2, (h5 rfl).1, ?_⟩
  have hd : tick_handler sample_host sample_state_12h = some sample_state_shown := by
    decide
  rw [hd] at h1
  rw [← Option.some.inj h1]
  decide

/-! ## Injectivity of the UTC time text -/

/-- C9, at the failing input: in 12-hour mode the ticks at 0:00 UTC and at
12:00 UTC both write `"12:00 AM"`, so the UTC time string does not identify
the time of day. -/
theorem C9_midnight_noon_collide :
    sample_host_midnight.utc_tm.tm_hour = 0 ∧ sample_host_noon.utc_tm.tm_hour = 12 ∧
    (tick_handler sample_host_midnight sample_state_12h).map
      (fun s => s.s_utctime_string) = some "12:00 AM" ∧
    (tick_handler sample_host_noon sample_state_12h).map
      (fun s => s.s_utctime_string) = some "12:00 AM" := by
  decide

/-! ## Where the UTC time text does identify the time -/

theorem digits_value_spec_decimal (n : Nat) (hn : n < 100) :
    digits_value (spec_decimal n).data = n := by
  interval_cases n <;> rfl

theorem digits_value_spec_two_digits (n : Nat) (hn : n < 60) :
    digits_value (spec_two_digits n).data = n := by
  interval_cases n <;> rfl

theorem hour_part_12h (h m : Nat) (hh : h < 24) :
    hour_part (spec_utctime_12h h m) = (spec_decimal (spec_hour12 h)).data := by
  interval_cases h <;> rfl

theorem rest_part_12h (h m : Nat) (hh : h < 24) :
    rest_part (spec_utctime_12h h m) = (spec_two_digits m).data ++ (spec_suffix12 h).data := by
  interval_cases h <;> rfl

theorem hour_part_24h (h m : Nat) (hh : h < 24) :
    hour_part (spec_utctime_24h h m) = (spec_decimal h).data := by
  interval_cases h <;> rfl

theorem rest_part_24h (h m : Nat) (hh : h < 24) :
    rest_part (spec_utctime_24h h m) = (spec_two_digits m).data := by
  interval_cases h <;> rfl

/-- In 24-hour mode the UTC time text determines hour and minute. -/
theorem utctime_text_24h_injective (h1 m1 h2 m2 : Nat)
    (hh1 : h1 < 24) (hm1 : m1 < 60) (hh2 : h2 < 24) (hm2 : m2 < 60)
    (e : utctime_text true (h1 : Int) (m1 : Int) = utctime_text true (h2 : Int) (m2 : Int)) :
    h1 = h2 ∧ m1 = m2 := by
  rw [utctime_text_24h h1 m1 hh1 hm1, utctime_text_24h h2 m2 hh2 hm2] at e
  have eh := congrArg hour_part e
  have er := congrArg rest_part e
  rw [hour_part_24h h1 m1 hh1, hour_part_24h h2 m2 hh2] at eh
  rw [rest_part_24h h1 m1 hh1, rest_part_24h h2 m2 hh2] at er
  have eh2 := congrArg digits_value eh
  have er2 := congrArg digits_value er
  rw [digits_value_spec_decimal h1 (by omega), digits_value_spec_decimal h2 (by omega)] at eh2
  rw [digits_value_spec_two_digits m1 hm1, digits_value_spec_two_digits m2 hm2] at er2
  exact ⟨eh2, er2⟩

/-- In 12-hour mode the UTC time text determines the minute, and the hour up
to the one confusion of 0 with 12. -/
theorem utctime_text_12h_near_injective (h1 m1 h2 m2 : Nat)
    (hh1 : h1 < 24) (hm1 : m1 < 60) (hh2 : h2 < 24) (hm2 : m2 < 60)
    (e : utctime_text false (h1 : Int) (m1 : Int)
      = utctime_text false (h2 : Int) (m2 : Int)) :
    m1 = m2 ∧ (h1 = h2 ∨ (h1 = 0 ∧ h2 = 12) ∨ (h1 = 12 ∧ h2 = 0)) := by
  rw [utctime_text_12h h1 m1 hh1 hm1, utctime_text_12h h2 m2 hh2 hm2] at e
  have eh := congrArg hour_part e
  have er := congrArg rest_part e
  rw [hour_part_12h h1 m1 hh1, hour_part_12h h2 m2 hh2] at eh
  rw [rest_part_12h h1 m1 hh1, rest_part_12h h2 m2 hh2] at er
  have eh2 := congrArg digits_value eh
  rw [digits_value_spec_decimal _ (spec_hour12_lt h1),
    digits_value_spec_decimal _ (spec_hour12_lt h2)] at eh2
  have em := congrArg (fun l => digits_value (l.take 2)) er
  have es := congrArg (fun l => l.drop 2) er
  have t1 : ∀ m h, ((spec_two_digits m).data ++ (spec_suffix12 h).data).take 2
      = (spec_two_digits m).data := fun _ _ => rfl
  have t2 : ∀ m h, ((spec_two_digits m).data ++ (spec_suffix12 h).data).drop 2
      = (spec_suffix12 h).data := fun _ _ => rfl
  simp only [t1, t2] at em es
  rw [digits_value_spec_two_digits m1 hm1, digits_value_spec_two_digits m2 hm2] at em
  refine ⟨em, ?_⟩
  have hs : (h1 ≤ 12 ↔ h2 ≤ 12) := by
    unfold spec_suffix12 at es
    by_cases c1 : h1 ≤ 12 <;> by_cases c2 : h2 ≤ 12 <;> simp [c1, c2] at es ⊢
  unfold spec_hour12 at eh2
  split at eh2 <;> split at eh2 <;> omega

end Timezone
